import Mathlib

/-!
# Library pull orchestration (`internal/pkg/client/library/pull.go`)

A shallow embedding of the three functions of `pull.go` (`pull`, `Pull`,
`PullToFile`).  The functions are sequential orchestration code around external
collaborators (library client, image cache, hasher, atomic copy, signature
verification).  Every collaborator is called at most once on any path through
the code, so its behaviour during one run is captured by the value it returns
for the arguments it receives: the record `Collab` holds one such answer
function per collaborator, and quantifying over `Collab` quantifies over every
behaviour of the collaborators.  Each function returns, besides its Go results,
the ordered list of collaborator calls it made (`Outcome.trace`).

`ctx`, `libraryConfig`, `keyConfig` and the progress-bar callback are only
forwarded to collaborators and are part of the collaborators' answers.
-/

namespace Library

/-- Go `error` values as far as `pull.go` can tell them apart: the two package
level sentinels it compares against or returns by identity, and any other error
value, of which only the text is observable. -/
inductive GoError where
  /-- The sentinel `libclient.ErrNotFound`. -/
  | ErrNotFound
  /-- The sentinel `ErrLibraryPullUnsigned` declared in `pull.go`. -/
  | ErrLibraryPullUnsigned
  /-- Any other error value (including those built by `fmt.Errorf`). -/
  | other (msg : String)
  deriving DecidableEq, Repr

/-- The method `err.Error()`.  `nf` is the text of `libclient.ErrNotFound`, a
constant of the external library client; the text of `ErrLibraryPullUnsigned`
is the one given to `errors.New` in `pull.go`. -/
def GoError.Error (nf : String) : GoError → String
  | .ErrNotFound => nf
  | .ErrLibraryPullUnsigned => "failed to verify container"
  | .other msg => msg

/-- The fields of `*cache.Entry` read by `pull`. -/
structure Entry where
  Exists : Bool
  Path : String
  TmpPath : String
  deriving DecidableEq, Repr

/-- The field of the library image descriptor read by `pull`. -/
structure Image where
  Hash : String
  deriving DecidableEq, Repr

/-- One call made by the code to a collaborator, with its arguments. -/
inductive Event where
  | GetLevel
  | NewClient
  | GetImage (arch imageRef : String)
  | Infof (msg : String)
  | Debugf (msg : String)
  | Warningf (msg : String)
  | DownloadImage (filePath arch imageRef : String)
  | GetEntry (cacheType hash : String)
  | ImageHash (filePath : String)
  | Finalize (cacheEntry : Entry)
  | CleanTmp (cacheEntry : Entry)
  | IsDisabled
  | TempFile (dir pattern : String)
  | CopyFileAtomic (src dst : String) (mode : Nat)
  | Verify (path : String)
  deriving DecidableEq, Repr

/-- The answers of the collaborators during one run. -/
structure Collab where
  /-- Text of `libclient.ErrNotFound`. -/
  ErrNotFoundText : String
  /-- The constant `cache.LibraryCacheType`. -/
  LibraryCacheType : String
  /-- `NormalizeLibraryRef`, defined elsewhere in the package. -/
  NormalizeLibraryRef : String → String
  /-- `libclient.NewClient(libraryConfig)`: the error, if any. -/
  NewClient : Option GoError
  /-- `c.GetImage(ctx, arch, imageRef)`. -/
  GetImage : String → String → Except GoError Image
  /-- `DownloadImage(ctx, c, filePath, arch, imageRef, callback)`. -/
  DownloadImage : String → String → String → Option GoError
  /-- `imgCache.GetEntry(cacheType, hash)`: an entry, or an error. -/
  GetEntry : String → String → Except GoError Entry
  /-- `libclient.ImageHash(filePath)`. -/
  ImageHash : String → Except GoError String
  /-- `cacheEntry.Finalize()`. -/
  Finalize : Entry → Option GoError
  /-- `imgCache.IsDisabled()`. -/
  IsDisabled : Bool
  /-- `ioutil.TempFile(dir, pattern)`: the name of the created file. -/
  TempFile : String → String → Except GoError String
  /-- `fs.CopyFileAtomic(src, dst, mode)`. -/
  CopyFileAtomic : String → String → Nat → Option GoError
  /-- `singularity.Verify(ctx, path, opts)`. -/
  Verify : String → Option GoError

/-- What a run produces: the collaborator calls in order, and the two named
results `imagePath` and `err` (`none` is Go's `nil`). -/
structure Outcome where
  trace : List Event
  imagePath : String
  err : Option GoError
  deriving DecidableEq, Repr

/-- Lines 61-81 of `pull.go`: the part of the cache branch of `pull` that runs
after `defer cacheEntry.CleanTmp()` has been registered. -/
def pullCached (w : Collab) (cacheEntry : Entry) (libraryImage : Image)
    (arch imageRef : String) : Outcome :=
  if !cacheEntry.Exists then
    let t1 := [Event.Infof "Downloading library image",
               Event.DownloadImage cacheEntry.TmpPath arch imageRef]
    match w.DownloadImage cacheEntry.TmpPath arch imageRef with
    | some err =>
      ⟨t1, "", some (.other ("unable to download image: " ++ err.Error w.ErrNotFoundText))⟩
    | none =>
      let t2 := t1 ++ [Event.ImageHash cacheEntry.TmpPath]
      match w.ImageHash cacheEntry.TmpPath with
      | .error err =>
        ⟨t2, "", some (.other ("error getting image hash: " ++ err.Error w.ErrNotFoundText))⟩
      | .ok cacheFileHash =>
        if cacheFileHash ≠ libraryImage.Hash then
          ⟨t2, "", some (.other ("cached file hash(" ++ cacheFileHash ++ ") and expected hash("
              ++ libraryImage.Hash ++ ") does not match"))⟩
        else
          let t3 := t2 ++ [Event.Finalize cacheEntry]
          match w.Finalize cacheEntry with
          | some err => ⟨t3, "", some err⟩
          | none => ⟨t3, cacheEntry.Path, none⟩
  else
    ⟨[Event.Infof "Using cached image"], cacheEntry.Path, none⟩

/-- The function `pull` of `pull.go`.  The deferred `cacheEntry.CleanTmp()` runs
when the function returns, after the results are set; its own result is
discarded. -/
def pull (w : Collab) (directTo pullFrom arch : String) : Outcome :=
  let imageRef := w.NormalizeLibraryRef pullFrom
  let t0 := [Event.GetLevel, Event.NewClient]
  match w.NewClient with
  | some err =>
    ⟨t0, "", some (.other ("unable to initialize client library: "
        ++ err.Error w.ErrNotFoundText))⟩
  | none =>
    let t1 := t0 ++ [Event.GetImage arch imageRef]
    match w.GetImage arch imageRef with
    | .error err =>
      if err = GoError.ErrNotFound then
        ⟨t1, "", some (.other ("image does not exist in the library: " ++ imageRef
            ++ " (" ++ arch ++ ")"))⟩
      else
        ⟨t1, "", some err⟩
    | .ok libraryImage =>
      if directTo ≠ "" then
        let t2 := t1 ++ [Event.Infof "Downloading library image",
                         Event.DownloadImage directTo arch imageRef]
        match w.DownloadImage directTo arch imageRef with
        | some err =>
          ⟨t2, "", some (.other ("unable to download image: "
              ++ err.Error w.ErrNotFoundText))⟩
        | none => ⟨t2, directTo, none⟩
      else
        let t2 := t1 ++ [Event.GetEntry w.LibraryCacheType libraryImage.Hash]
        match w.GetEntry w.LibraryCacheType libraryImage.Hash with
        | .error err =>
          ⟨t2, "", some (.other ("unable to check if " ++ libraryImage.Hash
              ++ " exists in cache: " ++ err.Error w.ErrNotFoundText))⟩
        | .ok cacheEntry =>
          let r := pullCached w cacheEntry libraryImage arch imageRef
          ⟨t2 ++ r.trace ++ [Event.CleanTmp cacheEntry], r.imagePath, r.err⟩

/-- The function `Pull` of `pull.go`. -/
def Pull (w : Collab) (pullFrom arch tmpDir : String) : Outcome :=
  if w.IsDisabled then
    let t0 := [Event.IsDisabled, Event.TempFile tmpDir "sbuild-tmp-cache-"]
    match w.TempFile tmpDir "sbuild-tmp-cache-" with
    | .error err =>
      ⟨t0, "", some (.other ("unable to create tmp file: " ++ err.Error w.ErrNotFoundText))⟩
    | .ok directTo =>
      let r := pull w directTo pullFrom arch
      ⟨t0 ++ [Event.Infof ("Downloading library image to tmp cache: " ++ directTo)] ++ r.trace,
        r.imagePath, r.err⟩
  else
    let r := pull w "" pullFrom arch
    ⟨[Event.IsDisabled] ++ r.trace, r.imagePath, r.err⟩

/-- The value of `directTo` at line 113 of `PullToFile`. -/
def directToOf (w : Collab) (pullTo : String) : String :=
  if w.IsDisabled then pullTo else ""

/-- The function `PullToFile` of `pull.go` (`tmpDir` is unused there). -/
def PullToFile (w : Collab) (pullTo pullFrom arch : String) : Outcome :=
  let directTo := directToOf w pullTo
  let t0 := if w.IsDisabled then
      [Event.IsDisabled, Event.Debugf ("Cache disabled, pulling directly to: " ++ directTo)]
    else [Event.IsDisabled]
  let r := pull w directTo pullFrom arch
  let t1 := t0 ++ r.trace
  match r.err with
  | some err =>
    ⟨t1, "", some (.other ("error fetching image: " ++ err.Error w.ErrNotFoundText))⟩
  | none =>
    let src := r.imagePath
    let copy : List Event × Option GoError :=
      if directTo = "" then
        ([Event.CopyFileAtomic src pullTo 0o777], w.CopyFileAtomic src pullTo 0o777)
      else ([], none)
    match copy.2 with
    | some err =>
      ⟨t1 ++ copy.1, "", some (.other ("error copying image out of cache: "
          ++ err.Error w.ErrNotFoundText))⟩
    | none =>
      let t2 := t1 ++ copy.1 ++ [Event.Verify pullTo]
      match w.Verify pullTo with
      | some err =>
        ⟨t2 ++ [Event.Warningf (err.Error w.ErrNotFoundText)], pullTo,
          some GoError.ErrLibraryPullUnsigned⟩
      | none => ⟨t2, pullTo, none⟩

/-! ## Trace predicates -/

/-- Is the event a call of `DownloadImage`? -/
def Event.isDownload : Event → Bool
  | .DownloadImage _ _ _ => true
  | _ => false

/-- Is the event a call of `cacheEntry.Finalize`? -/
def Event.isFinalize : Event → Bool
  | .Finalize _ => true
  | _ => false

/-- Is the event a call of `cacheEntry.CleanTmp`? -/
def Event.isCleanTmp : Event → Bool
  | .CleanTmp _ => true
  | _ => false

/-- Is the event a call of `libclient.ImageHash`? -/
def Event.isImageHash : Event → Bool
  | .ImageHash _ => true
  | _ => false

/-- Is the event a call of `imgCache.GetEntry`? -/
def Event.isGetEntry : Event → Bool
  | .GetEntry _ _ => true
  | _ => false

/-- Is the event a call of `fs.CopyFileAtomic`? -/
def Event.isCopy : Event → Bool
  | .CopyFileAtomic _ _ _ => true
  | _ => false

/-- Is the event a call of `singularity.Verify`? -/
def Event.isVerify : Event → Bool
  | .Verify _ => true
  | _ => false

/-- The text `sub` occurs in the text `s`. -/
def Contains (s sub : String) : Prop := sub.data <:+: s.data

instance (s sub : String) : Decidable (Contains s sub) := by
  unfold Contains; infer_instance

/-! ## Sample collaborators (the end-to-end scenarios of the specification) -/

/-- A sample collaborator record: everything succeeds, the cache is enabled,
the remote hash is `abc123`, the entry is absent and the staged file hashes to
`abc123`. -/
def sampleCollab : Collab where
  ErrNotFoundText := "not found"
  LibraryCacheType := "library"
  NormalizeLibraryRef := fun s => s
  NewClient := none
  GetImage := fun _ _ => .ok ⟨"abc123"⟩
  DownloadImage := fun _ _ _ => none
  GetEntry := fun _ h => .ok ⟨false, "/cache/library/" ++ h, "/cache/tmp/" ++ h⟩
  ImageHash := fun _ => .ok "abc123"
  Finalize := fun _ => none
  IsDisabled := false
  TempFile := fun d p => .ok (d ++ "/" ++ p ++ "0001")
  CopyFileAtomic := fun _ _ _ => none
  Verify := fun _ => none

/-- The collaborators of scenario C: remote hash `abc123`, staged file hashing
to `xyz999`. -/
def mismatchCollab : Collab :=
  { sampleCollab with ImageHash := fun _ => .ok "xyz999" }

/-- The collaborators of scenario B: the cache already holds the entry for
`abc123`. -/
def hitCollab : Collab :=
  { sampleCollab with
    GetEntry := fun _ h => .ok ⟨true, "/cache/library/" ++ h, "/cache/tmp/" ++ h⟩ }

/-- The collaborators of a cancelled download: `DownloadImage` returns the
cancellation error. -/
def cancelledCollab : Collab :=
  { sampleCollab with DownloadImage := fun _ _ _ => some (.other "context canceled") }

/-- The collaborators of scenario D: the cache is disabled and the downloaded
bytes hash to something else than the remote hash. -/
def directCollab : Collab :=
  { sampleCollab with IsDisabled := true, ImageHash := fun _ => .ok "xyz999" }

/-- The collaborators of an unsigned image: everything succeeds but `Verify`
reports that the image carries no signature. -/
def unsignedCollab : Collab :=
  { sampleCollab with Verify := fun _ => some (.other "image is not signed") }

/-- The collaborators of a rejected image: everything succeeds but `Verify`
runs and rejects the signature. -/
def rejectedCollab : Collab :=
  { sampleCollab with
    Verify := fun _ => some (.other "signature verification failed: signature rejected") }

/-- The collaborators of a disabled cache: `IsDisabled` answers true and the
cache lookup answers with an error. -/
def disabledCacheCollab : Collab :=
  { sampleCollab with
    IsDisabled := true
    GetEntry := fun _ _ => .error (.other "cache is disabled") }

/-! ## Evaluation lemmas -/

/-- The cache branch of `pull` once the resolver and the cache lookup have
answered: the body of the branch, followed by the deferred `CleanTmp`. -/
theorem pull_cache_eq (w : Collab) (pullFrom arch : String) (libraryImage : Image)
    (cacheEntry : Entry) (hc : w.NewClient = none)
    (hi : w.GetImage arch (w.NormalizeLibraryRef pullFrom) = .ok libraryImage)
    (he : w.GetEntry w.LibraryCacheType libraryImage.Hash = .ok cacheEntry) :
    pull w "" pullFrom arch =
      ⟨[Event.GetLevel, Event.NewClient, Event.GetImage arch (w.NormalizeLibraryRef pullFrom),
          Event.GetEntry w.LibraryCacheType libraryImage.Hash]
          ++ (pullCached w cacheEntry libraryImage arch (w.NormalizeLibraryRef pullFrom)).trace
          ++ [Event.CleanTmp cacheEntry],
        (pullCached w cacheEntry libraryImage arch (w.NormalizeLibraryRef pullFrom)).imagePath,
        (pullCached w cacheEntry libraryImage arch (w.NormalizeLibraryRef pullFrom)).err⟩ := by
  simp [pull, hc, hi, he]

/-- The direct branch of `pull` once the resolver has answered. -/
theorem pull_direct_eq (w : Collab) (directTo pullFrom arch : String) (libraryImage : Image)
    (hd : directTo ≠ "") (hc : w.NewClient = none)
    (hi : w.GetImage arch (w.NormalizeLibraryRef pullFrom) = .ok libraryImage) :
    pull w directTo pullFrom arch =
      ⟨[Event.GetLevel, Event.NewClient, Event.GetImage arch (w.NormalizeLibraryRef pullFrom),
          Event.Infof "Downloading library image",
          Event.DownloadImage directTo arch (w.NormalizeLibraryRef pullFrom)],
        if w.DownloadImage directTo arch (w.NormalizeLibraryRef pullFrom) = none
          then directTo else "",
        (w.DownloadImage directTo arch (w.NormalizeLibraryRef pullFrom)).map
          fun err => .other ("unable to download image: " ++ err.Error w.ErrNotFoundText)⟩ := by
  cases hdl : w.DownloadImage directTo arch (w.NormalizeLibraryRef pullFrom) <;>
    simp [pull, hc, hi, hd, hdl]

/-- A text occurs in any text built around it. -/
theorem contains_mid (a sub b : String) : Contains (a ++ sub ++ b) sub :=
  ⟨a.data, b.data, by simp [String.data_append]⟩

/-- The function `pull` calls neither `fs.CopyFileAtomic` nor `singularity.Verify`. -/
theorem pull_trace_no_copy_no_verify (w : Collab) (directTo pullFrom arch : String) :
    ∀ ev ∈ (pull w directTo pullFrom arch).trace, ev.isCopy = false ∧ ev.isVerify = false := by
  unfold pull pullCached
  dsimp only
  repeat' split
  all_goals simp [Event.isCopy, Event.isVerify]

/-- No event of `pull` passes the filter for copies. -/
theorem pull_filter_copy (w : Collab) (directTo pullFrom arch : String) :
    (pull w directTo pullFrom arch).trace.filter Event.isCopy = [] := by
  rw [List.filter_eq_nil_iff]
  intro ev hev
  simp [(pull_trace_no_copy_no_verify w directTo pullFrom arch ev hev).1]

/-- No event of `pull` passes the filter for verifications. -/
theorem pull_filter_verify (w : Collab) (directTo pullFrom arch : String) :
    (pull w directTo pullFrom arch).trace.filter Event.isVerify = [] := by
  rw [List.filter_eq_nil_iff]
  intro ev hev
  simp [(pull_trace_no_copy_no_verify w directTo pullFrom arch ev hev).2]

/-- Whenever `pull` returns an error it returns the empty path. -/
theorem pull_path_of_err (w : Collab) (directTo pullFrom arch : String) (err : GoError)
    (h : (pull w directTo pullFrom arch).err = some err) :
    (pull w directTo pullFrom arch).imagePath = "" := by
  revert h
  unfold pull pullCached
  dsimp only
  repeat' split
  all_goals simp

/-- A run of `pull` in cache-backed mode that returns no error returns the path
of the cache entry, and the entry either existed already or was downloaded into
`TmpPath`, hashed to `libraryImage.Hash` and then finalized. -/
theorem pull_cache_success (w : Collab) (pullFrom arch : String)
    (h : (pull w "" pullFrom arch).err = none) :
    ∃ libraryImage cacheEntry,
      w.NewClient = none ∧
      w.GetImage arch (w.NormalizeLibraryRef pullFrom) = .ok libraryImage ∧
      w.GetEntry w.LibraryCacheType libraryImage.Hash = .ok cacheEntry ∧
      (pull w "" pullFrom arch).imagePath = cacheEntry.Path ∧
      (cacheEntry.Exists = true ∨
        (cacheEntry.Exists = false ∧
          w.DownloadImage cacheEntry.TmpPath arch (w.NormalizeLibraryRef pullFrom) = none ∧
          w.ImageHash cacheEntry.TmpPath = .ok libraryImage.Hash ∧
          w.Finalize cacheEntry = none ∧
          (pull w "" pullFrom arch).trace =
            [Event.GetLevel, Event.NewClient,
              Event.GetImage arch (w.NormalizeLibraryRef pullFrom),
              Event.GetEntry w.LibraryCacheType libraryImage.Hash,
              Event.Infof "Downloading library image",
              Event.DownloadImage cacheEntry.TmpPath arch (w.NormalizeLibraryRef pullFrom),
              Event.ImageHash cacheEntry.TmpPath, Event.Finalize cacheEntry,
              Event.CleanTmp cacheEntry])) := by
  rcases hc : w.NewClient with _ | e0
  · rcases hi : w.GetImage arch (w.NormalizeLibraryRef pullFrom) with e1 | libraryImage
    · by_cases h1 : e1 = GoError.ErrNotFound <;> simp [pull, hc, hi, h1] at h
    · rcases he : w.GetEntry w.LibraryCacheType libraryImage.Hash with e2 | cacheEntry
      · simp [pull, hc, hi, he] at h
      · refine ⟨libraryImage, cacheEntry, rfl, rfl, he, ?_⟩
        rw [pull_cache_eq w pullFrom arch libraryImage cacheEntry hc hi he] at h ⊢
        cases hx : cacheEntry.Exists
        · rcases hdl : w.DownloadImage cacheEntry.TmpPath arch
            (w.NormalizeLibraryRef pullFrom) with _ | e3
          · rcases hh : w.ImageHash cacheEntry.TmpPath with e4 | cacheFileHash
            · simp [pullCached, hx, hdl, hh] at h
            · by_cases hne : cacheFileHash = libraryImage.Hash
              · rcases hf : w.Finalize cacheEntry with _ | e5
                · subst hne
                  simp [pullCached, hx, hdl, hh, hf]
                · simp [pullCached, hx, hdl, hh, hne, hf] at h
              · simp [pullCached, hx, hdl, hh, hne] at h
          · simp [pullCached, hx, hdl] at h
        · simp [pullCached, hx]
  · simp [pull, hc] at h

/-- In cache-backed mode the only destination `pull` ever downloads to is the
`TmpPath` of the entry returned by the cache lookup. -/
theorem pull_cache_download_dest (w : Collab) (pullFrom arch filePath a r : String)
    (h : Event.DownloadImage filePath a r ∈ (pull w "" pullFrom arch).trace) :
    ∃ libraryImage cacheEntry,
      w.GetImage arch (w.NormalizeLibraryRef pullFrom) = .ok libraryImage ∧
      w.GetEntry w.LibraryCacheType libraryImage.Hash = .ok cacheEntry ∧
      filePath = cacheEntry.TmpPath := by
  rcases hc : w.NewClient with _ | e0
  · rcases hi : w.GetImage arch (w.NormalizeLibraryRef pullFrom) with e1 | libraryImage
    · by_cases h1 : e1 = GoError.ErrNotFound <;> simp [pull, hc, hi, h1] at h
    · rcases he : w.GetEntry w.LibraryCacheType libraryImage.Hash with e2 | cacheEntry
      · simp [pull, hc, hi, he] at h
      · refine ⟨libraryImage, cacheEntry, rfl, he, ?_⟩
        rw [pull_cache_eq w pullFrom arch libraryImage cacheEntry hc hi he] at h
        revert h
        unfold pullCached
        dsimp only
        repeat' split
        all_goals simp
        all_goals intro h1 _ _; exact h1
  · simp [pull, hc] at h

/-! ## Claims -/

/-- C1: in cache-backed mode (`directTo == ""`), whatever the collaborators do,
`Finalize` is called at most once, and when it is called then the entry did not
exist, `DownloadImage` into `cacheEntry.TmpPath` returned no error and
`ImageHash(cacheEntry.TmpPath)` returned without error a hash equal to
`libraryImage.Hash`, the three calls occurring in the order download, hash,
finalize. -/
theorem pull_finalize_only_after_hash_match (w : Collab) (pullFrom arch : String) :
    ((pull w "" pullFrom arch).trace.filter Event.isFinalize).length ≤ 1 ∧
    ∀ ev ∈ (pull w "" pullFrom arch).trace, ev.isFinalize = true →
      ∃ libraryImage cacheEntry pre post,
        ev = Event.Finalize cacheEntry ∧
        w.NewClient = none ∧
        w.GetImage arch (w.NormalizeLibraryRef pullFrom) = .ok libraryImage ∧
        w.GetEntry w.LibraryCacheType libraryImage.Hash = .ok cacheEntry ∧
        cacheEntry.Exists = false ∧
        w.DownloadImage cacheEntry.TmpPath arch (w.NormalizeLibraryRef pullFrom) = none ∧
        w.ImageHash cacheEntry.TmpPath = .ok libraryImage.Hash ∧
        (pull w "" pullFrom arch).trace =
          pre ++ [Event.DownloadImage cacheEntry.TmpPath arch (w.NormalizeLibraryRef pullFrom),
                  Event.ImageHash cacheEntry.TmpPath, Event.Finalize cacheEntry] ++ post ∧
        (∀ e ∈ pre, e.isFinalize = false) ∧ (∀ e ∈ post, e.isFinalize = false) := by
  rcases hc : w.NewClient with _ | e0
  · rcases hi : w.GetImage arch (w.NormalizeLibraryRef pullFrom) with e1 | libraryImage
    · by_cases h1 : e1 = GoError.ErrNotFound <;> simp [pull, hc, hi, h1, Event.isFinalize]
    · rcases he : w.GetEntry w.LibraryCacheType libraryImage.Hash with e2 | cacheEntry
      · simp [pull, hc, hi, he, Event.isFinalize]
      · rw [pull_cache_eq w pullFrom arch libraryImage cacheEntry hc hi he]
        cases hx : cacheEntry.Exists
        · rcases hd : w.DownloadImage cacheEntry.TmpPath arch (w.NormalizeLibraryRef pullFrom)
            with _ | e3
          · rcases hh : w.ImageHash cacheEntry.TmpPath with e4 | cacheFileHash
            · simp [pullCached, hx, hd, hh, Event.isFinalize]
            · by_cases hne : cacheFileHash = libraryImage.Hash
              · subst hne
                have key : (pullCached w cacheEntry libraryImage arch
                    (w.NormalizeLibraryRef pullFrom)).trace =
                    [Event.Infof "Downloading library image",
                     Event.DownloadImage cacheEntry.TmpPath arch (w.NormalizeLibraryRef pullFrom),
                     Event.ImageHash cacheEntry.TmpPath, Event.Finalize cacheEntry] := by
                  cases hf : w.Finalize cacheEntry <;> simp [pullCached, hx, hd, hh, hf]
                rw [key]
                refine ⟨by simp [Event.isFinalize], ?_⟩
                intro ev hev hfin
                refine ⟨libraryImage, cacheEntry,
                  [Event.GetLevel, Event.NewClient,
                    Event.GetImage arch (w.NormalizeLibraryRef pullFrom),
                    Event.GetEntry w.LibraryCacheType libraryImage.Hash,
                    Event.Infof "Downloading library image"],
                  [Event.CleanTmp cacheEntry], ?_, rfl, rfl, he, hx, hd, hh, by simp,
                  by simp [Event.isFinalize], by simp [Event.isFinalize]⟩
                simp at hev
                rcases hev with h | h | h | h | h | h | h | h | h <;>
                  simp [h, Event.isFinalize] at hfin ⊢
              · simp [pullCached, hx, hd, hh, hne, Event.isFinalize]
          · simp [pullCached, hx, hd, Event.isFinalize]
        · simp [pullCached, hx, Event.isFinalize]
  · simp [pull, hc, Event.isFinalize]

/-- C2: in cache-backed mode, when the entry does not exist, the download
succeeds and the hash computed for the staged file differs from
`libraryImage.Hash`, `pull` returns the empty path and an error whose text
contains the computed hash and the expected hash; `Finalize` is not called and
`CleanTmp` is the last call made before `pull` returns. -/
theorem pull_hash_mismatch (w : Collab) (pullFrom arch : String) (libraryImage : Image)
    (cacheEntry : Entry) (cacheFileHash : String) (hc : w.NewClient = none)
    (hi : w.GetImage arch (w.NormalizeLibraryRef pullFrom) = .ok libraryImage)
    (he : w.GetEntry w.LibraryCacheType libraryImage.Hash = .ok cacheEntry)
    (hx : cacheEntry.Exists = false)
    (hd : w.DownloadImage cacheEntry.TmpPath arch (w.NormalizeLibraryRef pullFrom) = none)
    (hh : w.ImageHash cacheEntry.TmpPath = .ok cacheFileHash)
    (hne : cacheFileHash ≠ libraryImage.Hash) :
    (pull w "" pullFrom arch).imagePath = "" ∧
    (∃ err, (pull w "" pullFrom arch).err = some err ∧
      Contains (err.Error w.ErrNotFoundText) cacheFileHash ∧
      Contains (err.Error w.ErrNotFoundText) libraryImage.Hash) ∧
    (∀ ev ∈ (pull w "" pullFrom arch).trace, ev.isFinalize = false) ∧
    (pull w "" pullFrom arch).trace.getLast? = some (Event.CleanTmp cacheEntry) := by
  rw [pull_cache_eq w pullFrom arch libraryImage cacheEntry hc hi he]
  refine ⟨by simp [pullCached, hx, hd, hh, hne], ?_, ?_, List.getLast?_concat _⟩
  · refine ⟨.other ("cached file hash(" ++ cacheFileHash ++ ") and expected hash("
      ++ libraryImage.Hash ++ ") does not match"), by simp [pullCached, hx, hd, hh, hne], ?_, ?_⟩
    · have h := contains_mid "cached file hash(" cacheFileHash
        (") and expected hash(" ++ libraryImage.Hash ++ ") does not match")
      simpa [GoError.Error, String.append_assoc] using h
    · have h := contains_mid ("cached file hash(" ++ cacheFileHash ++ ") and expected hash(")
        libraryImage.Hash ") does not match"
      simpa [GoError.Error, String.append_assoc] using h
  · simp [pullCached, hx, hd, hh, hne, Event.isFinalize]

/-- C2 at scenario C (expected `abc123`, computed `xyz999`). -/
theorem pull_hash_mismatch_witness :
    (pull mismatchCollab "" "alpine:latest" "amd64").imagePath = "" ∧
    (∃ err, (pull mismatchCollab "" "alpine:latest" "amd64").err = some err ∧
      Contains (err.Error mismatchCollab.ErrNotFoundText) "xyz999" ∧
      Contains (err.Error mismatchCollab.ErrNotFoundText) (Image.mk "abc123").Hash) ∧
    (∀ ev ∈ (pull mismatchCollab "" "alpine:latest" "amd64").trace, ev.isFinalize = false) ∧
    (pull mismatchCollab "" "alpine:latest" "amd64").trace.getLast? =
      some (Event.CleanTmp ⟨false, "/cache/library/abc123", "/cache/tmp/abc123"⟩) :=
  pull_hash_mismatch mismatchCollab "alpine:latest" "amd64" ⟨"abc123"⟩
    ⟨false, "/cache/library/abc123", "/cache/tmp/abc123"⟩ "xyz999" rfl rfl rfl rfl rfl rfl
    (by decide)

/-- C3: in cache-backed mode, when the resolver succeeds and `GetEntry` returns
an entry with `Exists == true`, `pull` calls neither `DownloadImage` nor
`ImageHash` nor `Finalize` and returns `(cacheEntry.Path, nil)`; any other such
run against the same entry returns the same path. -/
theorem pull_cache_hit (w : Collab) (pullFrom arch : String) (libraryImage : Image)
    (cacheEntry : Entry) (hc : w.NewClient = none)
    (hi : w.GetImage arch (w.NormalizeLibraryRef pullFrom) = .ok libraryImage)
    (he : w.GetEntry w.LibraryCacheType libraryImage.Hash = .ok cacheEntry)
    (hx : cacheEntry.Exists = true) :
    (∀ ev ∈ (pull w "" pullFrom arch).trace,
      ev.isDownload = false ∧ ev.isImageHash = false ∧ ev.isFinalize = false) ∧
    (pull w "" pullFrom arch).imagePath = cacheEntry.Path ∧
    (pull w "" pullFrom arch).err = none ∧
    ∀ (w2 : Collab) (pullFrom2 arch2 : String) (libraryImage2 : Image),
      w2.NewClient = none →
      w2.GetImage arch2 (w2.NormalizeLibraryRef pullFrom2) = .ok libraryImage2 →
      w2.GetEntry w2.LibraryCacheType libraryImage2.Hash = .ok cacheEntry →
      (pull w2 "" pullFrom2 arch2).imagePath = (pull w "" pullFrom arch).imagePath ∧
      (pull w2 "" pullFrom2 arch2).err = none := by
  rw [pull_cache_eq w pullFrom arch libraryImage cacheEntry hc hi he]
  refine ⟨by simp [pullCached, hx, Event.isDownload, Event.isImageHash, Event.isFinalize],
    by simp [pullCached, hx], by simp [pullCached, hx], ?_⟩
  intro w2 pullFrom2 arch2 libraryImage2 hc2 hi2 he2
  rw [pull_cache_eq w2 pullFrom2 arch2 libraryImage2 cacheEntry hc2 hi2 he2]
  simp [pullCached, hx]

/-- C3 at scenario B. -/
theorem pull_cache_hit_witness :
    (∀ ev ∈ (pull hitCollab "" "alpine:latest" "amd64").trace,
      ev.isDownload = false ∧ ev.isImageHash = false ∧ ev.isFinalize = false) ∧
    (pull hitCollab "" "alpine:latest" "amd64").imagePath = "/cache/library/abc123" ∧
    (pull hitCollab "" "alpine:latest" "amd64").err = none :=
  have h := pull_cache_hit hitCollab "alpine:latest" "amd64" ⟨"abc123"⟩
    ⟨true, "/cache/library/abc123", "/cache/tmp/abc123"⟩ rfl rfl rfl rfl
  ⟨h.1, h.2.1, h.2.2.1⟩

/-- C4: whenever `GetEntry` returns an entry without error, `CleanTmp` is called
exactly once, on that entry, and it is the last call `pull` makes before it
returns, whatever the download, the hasher and `Finalize` answer and whether or
not the entry exists. -/
theorem pull_cleanTmp_exactly_once_last (w : Collab) (pullFrom arch : String)
    (libraryImage : Image) (cacheEntry : Entry) (hc : w.NewClient = none)
    (hi : w.GetImage arch (w.NormalizeLibraryRef pullFrom) = .ok libraryImage)
    (he : w.GetEntry w.LibraryCacheType libraryImage.Hash = .ok cacheEntry) :
    (pull w "" pullFrom arch).trace.countP Event.isCleanTmp = 1 ∧
    (pull w "" pullFrom arch).trace.getLast? = some (Event.CleanTmp cacheEntry) := by
  rw [pull_cache_eq w pullFrom arch libraryImage cacheEntry hc hi he]
  refine ⟨?_, List.getLast?_concat _⟩
  have hbody : (pullCached w cacheEntry libraryImage arch
      (w.NormalizeLibraryRef pullFrom)).trace.countP Event.isCleanTmp = 0 := by
    unfold pullCached
    cases cacheEntry.Exists
    · rcases w.DownloadImage cacheEntry.TmpPath arch (w.NormalizeLibraryRef pullFrom) with _ | e3
      · rcases w.ImageHash cacheEntry.TmpPath with e4 | cacheFileHash
        · simp [Event.isCleanTmp]
        · by_cases hne : cacheFileHash = libraryImage.Hash
          · cases w.Finalize cacheEntry <;> simp [hne, Event.isCleanTmp]
          · simp [hne, Event.isCleanTmp]
      · simp [Event.isCleanTmp]
    · simp [Event.isCleanTmp]
  simp [List.countP_append, hbody, Event.isCleanTmp]

/-- C4 at a cancelled download. -/
theorem pull_cleanTmp_exactly_once_last_witness :
    (pull cancelledCollab "" "alpine:latest" "amd64").trace.countP Event.isCleanTmp = 1 ∧
    (pull cancelledCollab "" "alpine:latest" "amd64").trace.getLast? =
      some (Event.CleanTmp ⟨false, "/cache/library/abc123", "/cache/tmp/abc123"⟩) :=
  pull_cleanTmp_exactly_once_last cancelledCollab "alpine:latest" "amd64" ⟨"abc123"⟩
    ⟨false, "/cache/library/abc123", "/cache/tmp/abc123"⟩ rfl rfl rfl

/-- C5: in direct mode (`directTo != ""`), when the resolver succeeds,
`DownloadImage` is called exactly once, with destination `directTo`; there is no
cache lookup, no hash computation and no `Finalize`; `pull` returns
`(directTo, nil)` when the download succeeds, whatever `ImageHash` would answer,
and `("", err)` with a non-nil `err` when it fails. -/
theorem pull_direct_mode (w : Collab) (directTo pullFrom arch : String) (libraryImage : Image)
    (hd : directTo ≠ "") (hc : w.NewClient = none)
    (hi : w.GetImage arch (w.NormalizeLibraryRef pullFrom) = .ok libraryImage) :
    (pull w directTo pullFrom arch).trace.filter Event.isDownload =
      [Event.DownloadImage directTo arch (w.NormalizeLibraryRef pullFrom)] ∧
    (∀ ev ∈ (pull w directTo pullFrom arch).trace,
      ev.isGetEntry = false ∧ ev.isImageHash = false ∧ ev.isFinalize = false ∧
      ev.isCleanTmp = false) ∧
    (w.DownloadImage directTo arch (w.NormalizeLibraryRef pullFrom) = none →
      (pull w directTo pullFrom arch).imagePath = directTo ∧
      (pull w directTo pullFrom arch).err = none) ∧
    (w.DownloadImage directTo arch (w.NormalizeLibraryRef pullFrom) ≠ none →
      (pull w directTo pullFrom arch).imagePath = "" ∧
      (pull w directTo pullFrom arch).err ≠ none) := by
  rw [pull_direct_eq w directTo pullFrom arch libraryImage hd hc hi]
  refine ⟨by simp [Event.isDownload], by simp [Event.isGetEntry, Event.isImageHash,
    Event.isFinalize, Event.isCleanTmp], ?_, ?_⟩
  · intro h; simp [h]
  · intro h
    cases hdl : w.DownloadImage directTo arch (w.NormalizeLibraryRef pullFrom)
    · exact absurd hdl h
    · simp

/-- C5 at scenario D: the download goes straight to `/out/alpine.sif`. -/
theorem pull_direct_mode_witness :
    (pull directCollab "/out/alpine.sif" "alpine:latest" "amd64").trace.filter Event.isDownload =
      [Event.DownloadImage "/out/alpine.sif" "amd64" "alpine:latest"] ∧
    (pull directCollab "/out/alpine.sif" "alpine:latest" "amd64").imagePath = "/out/alpine.sif" ∧
    (pull directCollab "/out/alpine.sif" "alpine:latest" "amd64").err = none :=
  have h := pull_direct_mode directCollab "/out/alpine.sif" "alpine:latest" "amd64" ⟨"abc123"⟩
    (by decide) rfl rfl
  ⟨h.1, h.2.2.1 rfl⟩

/-- C6 fails as stated: with a fetch and a copy that succeed and a `Verify` that
rejects the image, `PullToFile` returns the non-empty path `pullTo`, and the
error it returns is the very error it returns for an unsigned image. -/
theorem PullToFile_rejected_counterexample :
    (pull rejectedCollab (directToOf rejectedCollab "/out/alpine.sif") "alpine:latest"
      "amd64").err = none ∧
    rejectedCollab.CopyFileAtomic "/cache/library/abc123" "/out/alpine.sif" 0o777 = none ∧
    rejectedCollab.Verify "/out/alpine.sif"
      = some (.other "signature verification failed: signature rejected") ∧
    (PullToFile rejectedCollab "/out/alpine.sif" "alpine:latest" "amd64").imagePath
      = "/out/alpine.sif" ∧
    (PullToFile rejectedCollab "/out/alpine.sif" "alpine:latest" "amd64").imagePath ≠ "" ∧
    (PullToFile rejectedCollab "/out/alpine.sif" "alpine:latest" "amd64").err
      = some GoError.ErrLibraryPullUnsigned ∧
    (PullToFile rejectedCollab "/out/alpine.sif" "alpine:latest" "amd64").err
      = (PullToFile unsignedCollab "/out/alpine.sif" "alpine:latest" "amd64").err := by
  decide

/-- C6 as the code has it: when the fetch (and the copy, if any) succeeds and
`Verify` returns any error at all, a rejection included, `PullToFile` logs that
error as a warning and returns the path `pullTo` together with
`ErrLibraryPullUnsigned`; the returned error does not depend on the error of
`Verify`. -/
theorem PullToFile_verify_error_not_fatal (w : Collab) (pullTo pullFrom arch : String)
    (verr : GoError)
    (hp : (pull w (directToOf w pullTo) pullFrom arch).err = none)
    (hcopy : directToOf w pullTo = "" →
      w.CopyFileAtomic (pull w (directToOf w pullTo) pullFrom arch).imagePath pullTo 0o777
        = none)
    (hver : w.Verify pullTo = some verr) :
    (PullToFile w pullTo pullFrom arch).imagePath = pullTo ∧
    (PullToFile w pullTo pullFrom arch).err = some GoError.ErrLibraryPullUnsigned ∧
    (PullToFile w pullTo pullFrom arch).trace.getLast?
      = some (Event.Warningf (verr.Error w.ErrNotFoundText)) := by
  by_cases hd : directToOf w pullTo = ""
  · have hcp := hcopy hd
    rw [hd] at hp hcp
    cases hdis : w.IsDisabled <;>
      simp [PullToFile, hd, hp, hcp, hver, hdis, List.getLast?_cons, List.getLast?_append]
  · cases hdis : w.IsDisabled <;>
      simp [PullToFile, hd, hp, hver, hdis, List.getLast?_cons, List.getLast?_append]

/-- C6 as the code has it, at a rejected image. -/
theorem PullToFile_verify_error_not_fatal_witness :
    (PullToFile rejectedCollab "/out/alpine.sif" "alpine:latest" "amd64").imagePath
      = "/out/alpine.sif" ∧
    (PullToFile rejectedCollab "/out/alpine.sif" "alpine:latest" "amd64").err
      = some GoError.ErrLibraryPullUnsigned ∧
    (PullToFile rejectedCollab "/out/alpine.sif" "alpine:latest" "amd64").trace.getLast?
      = some (Event.Warningf "signature verification failed: signature rejected") :=
  PullToFile_verify_error_not_fatal rejectedCollab "/out/alpine.sif" "alpine:latest" "amd64"
    (.other "signature verification failed: signature rejected") (by decide) (fun _ => rfl) rfl

/-- C7: when the fetch (and the copy out of the cache, if any) succeeds,
`PullToFile` calls `Verify` exactly once, on `pullTo`, and returns the path
`pullTo`: with a nil error when `Verify` returns no error, and with
`ErrLibraryPullUnsigned` when `Verify` returns the error of an unsigned
artifact. -/
theorem PullToFile_verified_or_unsigned (w : Collab) (pullTo pullFrom arch : String)
    (hp : (pull w (directToOf w pullTo) pullFrom arch).err = none)
    (hcopy : directToOf w pullTo = "" →
      w.CopyFileAtomic (pull w (directToOf w pullTo) pullFrom arch).imagePath pullTo 0o777
        = none) :
    (PullToFile w pullTo pullFrom arch).imagePath = pullTo ∧
    (PullToFile w pullTo pullFrom arch).trace.filter Event.isVerify = [Event.Verify pullTo] ∧
    (w.Verify pullTo = none → (PullToFile w pullTo pullFrom arch).err = none) ∧
    (∀ unsigned, w.Verify pullTo = some unsigned →
      (PullToFile w pullTo pullFrom arch).err = some GoError.ErrLibraryPullUnsigned) := by
  have hv := pull_filter_verify w (directToOf w pullTo) pullFrom arch
  by_cases hd : directToOf w pullTo = ""
  · have hcp := hcopy hd
    rw [hd] at hp hcp hv
    cases hdis : w.IsDisabled <;> cases hver : w.Verify pullTo <;>
      simp [PullToFile, hd, hp, hcp, hver, hv, hdis, Event.isVerify]
  · cases hdis : w.IsDisabled <;> cases hver : w.Verify pullTo <;>
      simp [PullToFile, hd, hp, hver, hv, hdis, Event.isVerify]

/-- C7 at an unsigned image pulled through the cache. -/
theorem PullToFile_verified_or_unsigned_witness :
    (PullToFile unsignedCollab "/out/alpine.sif" "alpine:latest" "amd64").imagePath
      = "/out/alpine.sif" ∧
    (PullToFile unsignedCollab "/out/alpine.sif" "alpine:latest" "amd64").err
      = some GoError.ErrLibraryPullUnsigned :=
  have h := PullToFile_verified_or_unsigned unsignedCollab "/out/alpine.sif" "alpine:latest"
    "amd64" (by decide) (fun _ => rfl)
  ⟨h.1, h.2.2.2 _ rfl⟩

/-- C8 at its failing input, the cache disabled and `pullTo` empty: `directTo`
is empty as well, so `pull` is not run in direct mode but takes the cache
branch, whose first call after the resolver is the cache lookup; and when that
run of `pull` returns without error the copy out of the cache is performed,
with destination `""`, although the cache is disabled. -/
theorem PullToFile_disabled_empty_pullTo (w : Collab) (pullFrom arch : String)
    (libraryImage : Image) (hdis : w.IsDisabled = true) (hc : w.NewClient = none)
    (hi : w.GetImage arch (w.NormalizeLibraryRef pullFrom) = .ok libraryImage) :
    directToOf w "" = "" ∧
    (∃ post, (PullToFile w "" pullFrom arch).trace =
      [Event.IsDisabled, Event.Debugf "Cache disabled, pulling directly to: ",
        Event.GetLevel, Event.NewClient,
        Event.GetImage arch (w.NormalizeLibraryRef pullFrom),
        Event.GetEntry w.LibraryCacheType libraryImage.Hash] ++ post) ∧
    (∀ filePath a r, Event.DownloadImage filePath a r ∈ (PullToFile w "" pullFrom arch).trace →
      ∃ cacheEntry, w.GetEntry w.LibraryCacheType libraryImage.Hash = .ok cacheEntry ∧
        filePath = cacheEntry.TmpPath) ∧
    ((pull w "" pullFrom arch).err = none →
      (PullToFile w "" pullFrom arch).trace.filter Event.isCopy =
        [Event.CopyFileAtomic (pull w "" pullFrom arch).imagePath "" 0o777]) := by
  have hc0 := pull_filter_copy w "" pullFrom arch
  have hpre : ∃ post0, (pull w "" pullFrom arch).trace =
      [Event.GetLevel, Event.NewClient, Event.GetImage arch (w.NormalizeLibraryRef pullFrom),
        Event.GetEntry w.LibraryCacheType libraryImage.Hash] ++ post0 := by
    rcases he : w.GetEntry w.LibraryCacheType libraryImage.Hash with e2 | cacheEntry
    · exact ⟨[], by simp [pull, hc, hi, he]⟩
    · rw [pull_cache_eq w pullFrom arch libraryImage cacheEntry hc hi he]
      exact ⟨_, List.append_assoc _ _ _⟩
  obtain ⟨post0, hpost0⟩ := hpre
  have hdl : ∀ filePath a r,
      Event.DownloadImage filePath a r ∈ (pull w "" pullFrom arch).trace →
      ∃ cacheEntry, w.GetEntry w.LibraryCacheType libraryImage.Hash = .ok cacheEntry ∧
        filePath = cacheEntry.TmpPath := by
    intro filePath a r hmem
    obtain ⟨img, cacheEntry, hi2, he2, hpath⟩ :=
      pull_cache_download_dest w pullFrom arch filePath a r hmem
    rw [hi] at hi2
    cases hi2
    exact ⟨cacheEntry, he2, hpath⟩
  refine ⟨by simp [directToOf], ?_, ?_, ?_⟩
  · rcases hp : (pull w "" pullFrom arch).err with _ | perr
    · rcases hcp : w.CopyFileAtomic (pull w "" pullFrom arch).imagePath "" 0o777
        with _ | cerr
      · cases hver : w.Verify "" <;>
          exact ⟨_, by simp [PullToFile, directToOf, hdis, hp, hcp, hver, hpost0]; rfl⟩
      · exact ⟨_, by simp [PullToFile, directToOf, hdis, hp, hcp, hpost0]; rfl⟩
    · exact ⟨_, by simp [PullToFile, directToOf, hdis, hp, hpost0]; rfl⟩
  · intro filePath a r hmem
    apply hdl filePath a r
    rcases hp : (pull w "" pullFrom arch).err with _ | perr
    · rcases hcp : w.CopyFileAtomic (pull w "" pullFrom arch).imagePath "" 0o777
        with _ | cerr
      · cases hver : w.Verify "" <;>
          simpa [PullToFile, directToOf, hdis, hp, hcp, hver] using hmem
      · simpa [PullToFile, directToOf, hdis, hp, hcp] using hmem
    · simpa [PullToFile, directToOf, hdis, hp] using hmem
  · intro hp
    rcases hcp : w.CopyFileAtomic (pull w "" pullFrom arch).imagePath "" 0o777 with _ | cerr
    · cases hver : w.Verify "" <;>
        simp [PullToFile, directToOf, hdis, hp, hcp, hver, hc0, Event.isCopy]
    · simp [PullToFile, directToOf, hdis, hp, hcp, hc0, Event.isCopy]

/-- C8 at its failing input, for a disabled cache whose lookup fails: the run
makes the cache lookup and no download. -/
theorem PullToFile_disabled_empty_pullTo_witness :
    disabledCacheCollab.IsDisabled = true ∧
    directToOf disabledCacheCollab "" = "" ∧
    (∃ post, (PullToFile disabledCacheCollab "" "alpine:latest" "amd64").trace =
      [Event.IsDisabled, Event.Debugf "Cache disabled, pulling directly to: ",
        Event.GetLevel, Event.NewClient, Event.GetImage "amd64" "alpine:latest",
        Event.GetEntry "library" "abc123"] ++ post) ∧
    ∀ filePath a r,
      Event.DownloadImage filePath a r
        ∈ (PullToFile disabledCacheCollab "" "alpine:latest" "amd64").trace →
      ∃ cacheEntry, disabledCacheCollab.GetEntry "library" "abc123" = .ok cacheEntry ∧
        filePath = cacheEntry.TmpPath :=
  have h := PullToFile_disabled_empty_pullTo disabledCacheCollab "alpine:latest" "amd64"
    ⟨"abc123"⟩ rfl rfl rfl
  ⟨rfl, h.1, h.2.1, h.2.2.1⟩

/-- Away from that input, that is unless the cache is disabled and `pullTo` is
empty: the copy `fs.CopyFileAtomic(src, pullTo, 0777)`
is performed exactly when the cache is enabled and `pull` returned without
error, with `src` the path `pull` returned; with the cache disabled `pull` is
run in direct mode with `directTo = pullTo` and nothing is copied; when `pull`
fails neither the copy nor `Verify` is called and `("", err)` is returned; when
the copy fails `Verify` is not called and `("", err)` is returned; otherwise
`Verify` is called after the copy. -/
theorem PullToFile_relocation (w : Collab) (pullTo pullFrom arch : String)
    (hpt : w.IsDisabled = true → pullTo ≠ "") :
    (PullToFile w pullTo pullFrom arch).trace.filter Event.isCopy =
      (if w.IsDisabled = false ∧ (pull w "" pullFrom arch).err = none
        then [Event.CopyFileAtomic (pull w "" pullFrom arch).imagePath pullTo 0o777]
        else []) ∧
    (w.IsDisabled = true → directToOf w pullTo = pullTo ∧
      ∃ post, (PullToFile w pullTo pullFrom arch).trace =
        [Event.IsDisabled, Event.Debugf ("Cache disabled, pulling directly to: " ++ pullTo)]
          ++ (pull w pullTo pullFrom arch).trace ++ post ∧
        ∀ ev ∈ post, ev.isCopy = false) ∧
    (w.IsDisabled = false → directToOf w pullTo = "" ∧
      ∃ post, (PullToFile w pullTo pullFrom arch).trace =
        [Event.IsDisabled] ++ (pull w "" pullFrom arch).trace ++ post) ∧
    (∀ perr, (pull w (directToOf w pullTo) pullFrom arch).err = some perr →
      (PullToFile w pullTo pullFrom arch).trace.filter Event.isCopy = [] ∧
      (PullToFile w pullTo pullFrom arch).trace.filter Event.isVerify = [] ∧
      (PullToFile w pullTo pullFrom arch).imagePath = "" ∧
      (PullToFile w pullTo pullFrom arch).err =
        some (.other ("error fetching image: " ++ perr.Error w.ErrNotFoundText))) ∧
    (∀ cerr, w.IsDisabled = false → (pull w "" pullFrom arch).err = none →
      w.CopyFileAtomic (pull w "" pullFrom arch).imagePath pullTo 0o777 = some cerr →
      (PullToFile w pullTo pullFrom arch).trace.filter Event.isVerify = [] ∧
      (PullToFile w pullTo pullFrom arch).imagePath = "" ∧
      (PullToFile w pullTo pullFrom arch).err =
        some (.other ("error copying image out of cache: " ++ cerr.Error w.ErrNotFoundText))) ∧
    (w.IsDisabled = false → (pull w "" pullFrom arch).err = none →
      w.CopyFileAtomic (pull w "" pullFrom arch).imagePath pullTo 0o777 = none →
      ∃ post, (PullToFile w pullTo pullFrom arch).trace =
        [Event.IsDisabled] ++ (pull w "" pullFrom arch).trace
          ++ [Event.CopyFileAtomic (pull w "" pullFrom arch).imagePath pullTo 0o777,
              Event.Verify pullTo] ++ post ∧
        ∀ ev ∈ post, ev.isCopy = false ∧ ev.isVerify = false) ∧
    (w.IsDisabled = true → (pull w pullTo pullFrom arch).err = none →
      ∃ post, (PullToFile w pullTo pullFrom arch).trace =
        [Event.IsDisabled, Event.Debugf ("Cache disabled, pulling directly to: " ++ pullTo)]
          ++ (pull w pullTo pullFrom arch).trace ++ [Event.Verify pullTo] ++ post ∧
        ∀ ev ∈ post, ev.isCopy = false ∧ ev.isVerify = false) := by
  cases hdis : w.IsDisabled
  · have hc := pull_filter_copy w "" pullFrom arch
    have hv := pull_filter_verify w "" pullFrom arch
    rcases hp : (pull w "" pullFrom arch).err with _ | perr
    · rcases hcp : w.CopyFileAtomic (pull w "" pullFrom arch).imagePath pullTo 0o777
        with _ | cerr
      · cases hver : w.Verify pullTo <;>
          simp [PullToFile, directToOf, hdis, hp, hcp, hver, hc, hv, Event.isCopy,
            Event.isVerify]
      · simp [PullToFile, directToOf, hdis, hp, hcp, hc, hv, Event.isCopy, Event.isVerify]
    · simp [PullToFile, directToOf, hdis, hp, hc, hv, Event.isCopy, Event.isVerify]
  · have hc := pull_filter_copy w pullTo pullFrom arch
    have hv := pull_filter_verify w pullTo pullFrom arch
    have hpt := hpt hdis
    rcases hp : (pull w pullTo pullFrom arch).err with _ | perr
    · cases hver : w.Verify pullTo <;>
        simp [PullToFile, directToOf, hdis, hp, hpt, hver, hc, hv, Event.isCopy,
          Event.isVerify]
    · simp [PullToFile, directToOf, hdis, hp, hpt, hc, hv, Event.isCopy, Event.isVerify]

/-- Scenario A delivered to `/out/alpine.sif`: the cache is enabled, the fetch
succeeds and the finalized entry is copied out. -/
theorem PullToFile_relocation_scenario :
    (PullToFile sampleCollab "/out/alpine.sif" "alpine:latest" "amd64").trace.filter
      Event.isCopy = [Event.CopyFileAtomic "/cache/library/abc123" "/out/alpine.sif" 0o777] :=
  (PullToFile_relocation sampleCollab "/out/alpine.sif" "alpine:latest" "amd64"
    (fun _ => by decide)).1

/-- C9 fails as stated: a cancelled download of `alpine:latest` makes `pull`
return the error `unable to download image: context canceled`, and `PullToFile`
the error `error fetching image: unable to download image: context canceled`;
neither text contains the reference. -/
theorem error_without_reference_counterexample :
    cancelledCollab.NormalizeLibraryRef "alpine:latest" = "alpine:latest" ∧
    (pull cancelledCollab "" "alpine:latest" "amd64").err
      = some (.other "unable to download image: context canceled") ∧
    ¬ Contains "unable to download image: context canceled" "alpine:latest" ∧
    (PullToFile cancelledCollab "/out/alpine.sif" "alpine:latest" "amd64").err
      = some (.other "error fetching image: unable to download image: context canceled") ∧
    ¬ Contains "error fetching image: unable to download image: context canceled"
      "alpine:latest" := by
  decide

/-- C9 as the code has it.  An error returned by `pull` comes with the empty
path and has one of these forms: the error text of the client initialisation,
of the download, of the cache lookup or of the hash computation behind a fixed
text naming that stage (the cache lookup text also gives the expected hash);
the not-found text, into which the reference and the architecture are
formatted; the hash mismatch text with both hashes; or, unchanged, the error of
the resolver (other than not-found) or of `Finalize`.  An error returned by
`PullToFile` is the error text of `pull` behind `error fetching image: `, the
copy error text behind `error copying image out of cache: `, both with the
empty path, or the fixed `ErrLibraryPullUnsigned` with the path `pullTo`. -/
theorem error_texts (w : Collab) (directTo pullTo pullFrom arch : String) :
    (∀ err, (pull w directTo pullFrom arch).err = some err →
      (pull w directTo pullFrom arch).imagePath = "" ∧
      ((∃ e, w.NewClient = some e ∧
          err = .other ("unable to initialize client library: " ++ e.Error w.ErrNotFoundText)) ∨
       (w.GetImage arch (w.NormalizeLibraryRef pullFrom) = .error .ErrNotFound ∧
          err = .other ("image does not exist in the library: " ++ w.NormalizeLibraryRef pullFrom
            ++ " (" ++ arch ++ ")") ∧
          Contains (err.Error w.ErrNotFoundText) (w.NormalizeLibraryRef pullFrom) ∧
          Contains (err.Error w.ErrNotFoundText) arch) ∨
       (w.GetImage arch (w.NormalizeLibraryRef pullFrom) = .error err ∧
          err ≠ .ErrNotFound) ∨
       (∃ filePath e, w.DownloadImage filePath arch (w.NormalizeLibraryRef pullFrom) = some e ∧
          err = .other ("unable to download image: " ++ e.Error w.ErrNotFoundText)) ∨
       (∃ (libraryImage : Image) (e : GoError), w.GetEntry w.LibraryCacheType libraryImage.Hash = .error e ∧
          err = .other ("unable to check if " ++ libraryImage.Hash ++ " exists in cache: "
            ++ e.Error w.ErrNotFoundText)) ∨
       (∃ filePath e, w.ImageHash filePath = .error e ∧
          err = .other ("error getting image hash: " ++ e.Error w.ErrNotFoundText)) ∨
       (∃ (filePath cacheFileHash : String) (libraryImage : Image), w.ImageHash filePath = .ok cacheFileHash ∧
          cacheFileHash ≠ libraryImage.Hash ∧
          err = .other ("cached file hash(" ++ cacheFileHash ++ ") and expected hash("
            ++ libraryImage.Hash ++ ") does not match")) ∨
       (∃ cacheEntry, w.Finalize cacheEntry = some err))) ∧
    (∀ err, (PullToFile w pullTo pullFrom arch).err = some err →
      ((∃ perr, (pull w (directToOf w pullTo) pullFrom arch).err = some perr ∧
          err = .other ("error fetching image: " ++ perr.Error w.ErrNotFoundText) ∧
          (PullToFile w pullTo pullFrom arch).imagePath = "") ∨
       (∃ src cerr, w.CopyFileAtomic src pullTo 0o777 = some cerr ∧
          err = .other ("error copying image out of cache: "
            ++ cerr.Error w.ErrNotFoundText) ∧
          (PullToFile w pullTo pullFrom arch).imagePath = "") ∨
       (∃ verr, w.Verify pullTo = some verr ∧ err = .ErrLibraryPullUnsigned ∧
          err.Error w.ErrNotFoundText = "failed to verify container" ∧
          (PullToFile w pullTo pullFrom arch).imagePath = pullTo))) := by
  constructor
  · intro err h
    refine ⟨pull_path_of_err w directTo pullFrom arch err h, ?_⟩
    rcases hc : w.NewClient with _ | e0
    · rcases hi : w.GetImage arch (w.NormalizeLibraryRef pullFrom) with e1 | libraryImage
      · by_cases h1 : e1 = GoError.ErrNotFound
        · subst h1
          simp [pull, hc, hi] at h
          subst h
          refine Or.inr (Or.inl ⟨rfl, rfl, ?_, ?_⟩)
          · have hh := contains_mid "image does not exist in the library: "
              (w.NormalizeLibraryRef pullFrom) (" (" ++ arch ++ ")")
            simpa [GoError.Error, String.append_assoc] using hh
          · have hh := contains_mid ("image does not exist in the library: "
              ++ w.NormalizeLibraryRef pullFrom ++ " (") arch ")"
            simpa [GoError.Error, String.append_assoc] using hh
        · simp [pull, hc, hi, h1] at h
          subst h
          exact Or.inr (Or.inr (Or.inl ⟨rfl, h1⟩))
      · by_cases hd : directTo = ""
        · subst hd
          rcases he : w.GetEntry w.LibraryCacheType libraryImage.Hash with e2 | cacheEntry
          · simp [pull, hc, hi, he] at h
            subst h
            exact Or.inr (Or.inr (Or.inr (Or.inr (Or.inl ⟨libraryImage, e2, he, rfl⟩))))
          · rw [pull_cache_eq w pullFrom arch libraryImage cacheEntry hc hi he] at h
            cases hx : cacheEntry.Exists
            · rcases hdl : w.DownloadImage cacheEntry.TmpPath arch
                (w.NormalizeLibraryRef pullFrom) with _ | e3
              · rcases hh : w.ImageHash cacheEntry.TmpPath with e4 | cacheFileHash
                · simp [pullCached, hx, hdl, hh] at h
                  subst h
                  exact Or.inr (Or.inr (Or.inr (Or.inr (Or.inr (Or.inl
                    ⟨cacheEntry.TmpPath, e4, hh, rfl⟩)))))
                · by_cases hne : cacheFileHash = libraryImage.Hash
                  · rcases hf : w.Finalize cacheEntry with _ | e5
                    · simp [pullCached, hx, hdl, hh, hne, hf] at h
                    · simp [pullCached, hx, hdl, hh, hne, hf] at h
                      subst h
                      exact Or.inr (Or.inr (Or.inr (Or.inr (Or.inr (Or.inr (Or.inr
                        ⟨cacheEntry, hf⟩))))))
                  · simp [pullCached, hx, hdl, hh, hne] at h
                    subst h
                    exact Or.inr (Or.inr (Or.inr (Or.inr (Or.inr (Or.inr (Or.inl
                      ⟨cacheEntry.TmpPath, cacheFileHash, libraryImage, hh, hne, rfl⟩))))))
              · simp [pullCached, hx, hdl] at h
                subst h
                exact Or.inr (Or.inr (Or.inr (Or.inl ⟨cacheEntry.TmpPath, e3, hdl, rfl⟩)))
            · simp [pullCached, hx] at h
        · rw [pull_direct_eq w directTo pullFrom arch libraryImage hd hc hi] at h
          rcases hdl : w.DownloadImage directTo arch (w.NormalizeLibraryRef pullFrom) with _ | e3
          · simp [hdl] at h
          · simp [hdl] at h
            subst h
            exact Or.inr (Or.inr (Or.inr (Or.inl ⟨directTo, e3, hdl, rfl⟩)))
    · simp [pull, hc] at h
      subst h
      exact Or.inl ⟨e0, rfl, rfl⟩
  · intro err h
    rcases hp : (pull w (directToOf w pullTo) pullFrom arch).err with _ | perr
    · by_cases hd : directToOf w pullTo = ""
      · rcases hcp : w.CopyFileAtomic (pull w (directToOf w pullTo) pullFrom arch).imagePath
          pullTo 0o777 with _ | cerr
        all_goals rw [hd] at hp hcp
        · rcases hver : w.Verify pullTo with _ | verr
          · simp [PullToFile, hp, hd, hcp, hver] at h
          · simp [PullToFile, hp, hd, hcp, hver] at h
            subst h
            refine Or.inr (Or.inr ⟨verr, rfl, rfl, rfl, ?_⟩)
            simp [PullToFile, hp, hd, hcp, hver]
        · simp [PullToFile, hp, hd, hcp] at h
          subst h
          refine Or.inr (Or.inl ⟨_, cerr, hcp, rfl, ?_⟩)
          simp [PullToFile, hp, hd, hcp]
      · rcases hver : w.Verify pullTo with _ | verr
        · simp [PullToFile, hp, hd, hver] at h
        · simp [PullToFile, hp, hd, hver] at h
          subst h
          refine Or.inr (Or.inr ⟨verr, rfl, rfl, rfl, ?_⟩)
          simp [PullToFile, hp, hd, hver]
    · simp [PullToFile, hp] at h
      subst h
      refine Or.inl ⟨perr, rfl, rfl, ?_⟩
      simp [PullToFile, hp]

/-- C10 fails as stated: with the cache disabled, `Pull` creates a temporary
file and downloads straight to it; it looks up no cache entry, computes no
hash, and returns the temporary file with a nil error although the downloaded
bytes hash to `xyz999` and the remote hash is `abc123`. -/
theorem Pull_cache_disabled_counterexample :
    directCollab.IsDisabled = true ∧
    directCollab.ImageHash "/tmp/sbuild-tmp-cache-0001" = .ok "xyz999" ∧
    directCollab.GetImage "amd64" "alpine:latest" = .ok ⟨"abc123"⟩ ∧
    (Pull directCollab "alpine:latest" "amd64" "/tmp").err = none ∧
    (Pull directCollab "alpine:latest" "amd64" "/tmp").imagePath
      = "/tmp/sbuild-tmp-cache-0001" ∧
    (Pull directCollab "alpine:latest" "amd64" "/tmp").trace.filter Event.isDownload
      = [Event.DownloadImage "/tmp/sbuild-tmp-cache-0001" "amd64" "alpine:latest"] ∧
    (Pull directCollab "alpine:latest" "amd64" "/tmp").trace.filter Event.isGetEntry = [] ∧
    (Pull directCollab "alpine:latest" "amd64" "/tmp").trace.filter Event.isImageHash = [] := by
  refine ⟨rfl, rfl, rfl, ?_, ?_, ?_, ?_, ?_⟩ <;> decide

/-- C10 as the code has it.  With the cache enabled `Pull` runs `pull` with
`directTo == ""`: a path returned with a nil error is the cache entry's `Path`,
the entry either existed already or was hashed to `libraryImage.Hash` before
`Finalize`, and nothing is downloaded anywhere but to the entry's `TmpPath`.
With the cache disabled `Pull` creates a temporary file and runs `pull` in
direct mode on its (non-empty) name: no cache lookup, no hash computation, no
`Finalize`, and a download that succeeds yields the temporary file. -/
theorem Pull_cache_backed_when_enabled (w : Collab) (pullFrom arch tmpDir : String) :
    (w.IsDisabled = false →
      Pull w pullFrom arch tmpDir =
        ⟨[Event.IsDisabled] ++ (pull w "" pullFrom arch).trace,
          (pull w "" pullFrom arch).imagePath, (pull w "" pullFrom arch).err⟩ ∧
      ((Pull w pullFrom arch tmpDir).err = none →
        ∃ libraryImage cacheEntry,
          w.GetImage arch (w.NormalizeLibraryRef pullFrom) = .ok libraryImage ∧
          w.GetEntry w.LibraryCacheType libraryImage.Hash = .ok cacheEntry ∧
          (Pull w pullFrom arch tmpDir).imagePath = cacheEntry.Path ∧
          (cacheEntry.Exists = true ∨
            (w.DownloadImage cacheEntry.TmpPath arch (w.NormalizeLibraryRef pullFrom) = none ∧
              w.ImageHash cacheEntry.TmpPath = .ok libraryImage.Hash ∧
              w.Finalize cacheEntry = none ∧
              ∃ pre post, (Pull w pullFrom arch tmpDir).trace =
                pre ++ [Event.ImageHash cacheEntry.TmpPath, Event.Finalize cacheEntry]
                  ++ post))) ∧
      (∀ filePath a r, Event.DownloadImage filePath a r ∈ (Pull w pullFrom arch tmpDir).trace →
        ∃ libraryImage cacheEntry,
          w.GetImage arch (w.NormalizeLibraryRef pullFrom) = .ok libraryImage ∧
          w.GetEntry w.LibraryCacheType libraryImage.Hash = .ok cacheEntry ∧
          filePath = cacheEntry.TmpPath)) ∧
    (w.IsDisabled = true →
      ∀ name, w.TempFile tmpDir "sbuild-tmp-cache-" = .ok name → name ≠ "" →
        Pull w pullFrom arch tmpDir =
          ⟨[Event.IsDisabled, Event.TempFile tmpDir "sbuild-tmp-cache-",
              Event.Infof ("Downloading library image to tmp cache: " ++ name)]
              ++ (pull w name pullFrom arch).trace,
            (pull w name pullFrom arch).imagePath, (pull w name pullFrom arch).err⟩ ∧
        (∀ ev ∈ (Pull w pullFrom arch tmpDir).trace,
          ev.isGetEntry = false ∧ ev.isImageHash = false ∧ ev.isFinalize = false) ∧
        (∀ libraryImage, w.NewClient = none →
          w.GetImage arch (w.NormalizeLibraryRef pullFrom) = .ok libraryImage →
          w.DownloadImage name arch (w.NormalizeLibraryRef pullFrom) = none →
          (Pull w pullFrom arch tmpDir).imagePath = name ∧
          (Pull w pullFrom arch tmpDir).err = none ∧
          (Pull w pullFrom arch tmpDir).trace.filter Event.isDownload =
            [Event.DownloadImage name arch (w.NormalizeLibraryRef pullFrom)])) := by
  constructor
  · intro hdis
    have hP : Pull w pullFrom arch tmpDir =
        ⟨[Event.IsDisabled] ++ (pull w "" pullFrom arch).trace,
          (pull w "" pullFrom arch).imagePath, (pull w "" pullFrom arch).err⟩ := by
      simp [Pull, hdis]
    refine ⟨hP, ?_, ?_⟩
    · rw [hP]
      intro herr
      obtain ⟨libraryImage, cacheEntry, _, hi, he, hpath, hcase⟩ :=
        pull_cache_success w pullFrom arch herr
      refine ⟨libraryImage, cacheEntry, hi, he, hpath, ?_⟩
      rcases hcase with hx | ⟨_, hdl, hh, hf, htr⟩
      · exact Or.inl hx
      · refine Or.inr ⟨hdl, hh, hf, ?_⟩
        refine ⟨[Event.IsDisabled, Event.GetLevel, Event.NewClient,
            Event.GetImage arch (w.NormalizeLibraryRef pullFrom),
            Event.GetEntry w.LibraryCacheType libraryImage.Hash,
            Event.Infof "Downloading library image",
            Event.DownloadImage cacheEntry.TmpPath arch (w.NormalizeLibraryRef pullFrom)],
          [Event.CleanTmp cacheEntry], ?_⟩
        simp [htr]
    · rw [hP]
      intro filePath a r hmem
      apply pull_cache_download_dest w pullFrom arch filePath a r
      simpa using hmem
  · intro hdis name htmp hname
    have hP : Pull w pullFrom arch tmpDir =
        ⟨[Event.IsDisabled, Event.TempFile tmpDir "sbuild-tmp-cache-",
            Event.Infof ("Downloading library image to tmp cache: " ++ name)]
            ++ (pull w name pullFrom arch).trace,
          (pull w name pullFrom arch).imagePath, (pull w name pullFrom arch).err⟩ := by
      simp [Pull, hdis, htmp]
    refine ⟨hP, ?_, ?_⟩
    · rw [hP]
      rcases hc : w.NewClient with _ | e0
      · rcases hi : w.GetImage arch (w.NormalizeLibraryRef pullFrom) with e1 | libraryImage
        · by_cases h1 : e1 = GoError.ErrNotFound <;>
            simp [pull, hc, hi, h1, Event.isGetEntry, Event.isImageHash, Event.isFinalize]
        · rw [pull_direct_eq w name pullFrom arch libraryImage hname hc hi]
          simp [Event.isGetEntry, Event.isImageHash, Event.isFinalize]
      · simp [pull, hc, Event.isGetEntry, Event.isImageHash, Event.isFinalize]
    · intro libraryImage hc hi hdl
      rw [hP, pull_direct_eq w name pullFrom arch libraryImage hname hc hi]
      simp [hdl, Event.isDownload]

/-- C10 as the code has it, at scenario A: with the cache enabled the path
`Pull` returns is the `Path` of the entry looked up for `abc123`. -/
theorem Pull_cache_backed_when_enabled_witness :
    (Pull sampleCollab "alpine:latest" "amd64" "/tmp").imagePath = "/cache/library/abc123" ∧
    (Pull sampleCollab "alpine:latest" "amd64" "/tmp").err = none :=
  have h := ((Pull_cache_backed_when_enabled sampleCollab "alpine:latest" "amd64" "/tmp").1
    rfl).1
  ⟨by rw [h]; decide, by rw [h]; decide⟩

/-- C1 at scenario A: the one `Finalize` of the run follows a download into the
staging path and a hash equal to the remote hash `abc123`. -/
theorem pull_finalize_only_after_hash_match_witness :
    ((pull sampleCollab "" "alpine:latest" "amd64").trace.filter Event.isFinalize).length ≤ 1 ∧
    Event.Finalize ⟨false, "/cache/library/abc123", "/cache/tmp/abc123"⟩
      ∈ (pull sampleCollab "" "alpine:latest" "amd64").trace ∧
    sampleCollab.ImageHash "/cache/tmp/abc123" = .ok "abc123" :=
  ⟨(pull_finalize_only_after_hash_match sampleCollab "alpine:latest" "amd64").1,
    by decide, rfl⟩

end Library
